import Mathlib

/-!
Verification of the USB-host-to-serial bridge service
(`TinyUsbCdcService`, with the plain-UART sibling `UartService`).

The definitions below are a shallow embedding of the C++ source:
pure functions become Lean functions, the service's static/member
state becomes an explicit `ServiceState` record, the USB control
transfers issued by the configurator become values of `ControlRequest`
collected in issue order, and the outcome of each transfer is supplied
by an oracle `dev : ControlRequest → Bool` standing for the attached
device.  The FreeRTOS ring buffer is not part of this repository's
sources; where its behaviour matters it is modelled from the spec
(see the `StreamBuffer` section).
-/

namespace EspBrookesia

/-- Mirror of `TinyUsbCdcService::UsbDeviceType` (the chipset-family enum). -/
inductive UsbDeviceType
  | unknown
  | ch340
  | ft232
  | cp210x
  | pl2303
  | cdcStandard
deriving DecidableEq, Repr

/-- Embedding of `TinyUsbCdcService::detectDeviceType(uint16_t vid, uint16_t pid)`:
a chain of vendor-id checks, each with a switch over the listed product ids;
anything that falls through returns `DEVICE_TYPE_CDC_STANDARD`. -/
def detectDeviceType (vid pid : Nat) : UsbDeviceType :=
  if vid = 0x1A86 ∧ (pid = 0x7523 ∨ pid = 0x7522 ∨ pid = 0x7584 ∨ pid = 0x5523) then
    .ch340
  else if vid = 0x0403 ∧ (pid = 0x6001 ∨ pid = 0x6010 ∨ pid = 0x6011 ∨ pid = 0x6014 ∨ pid = 0x6015) then
    .ft232
  else if vid = 0x10C4 ∧ (pid = 0xEA60 ∨ pid = 0xEA70 ∨ pid = 0xEA71) then
    .cp210x
  else if vid = 0x067B ∧ (pid = 0x2303 ∨ pid = 0x2304) then
    .pl2303
  else if vid = 0x2341 then
    .cdcStandard
  else if vid = 0x0483 then
    .cdcStandard
  else if vid = 0x03EB ∨ vid = 0x04D8 then
    .cdcStandard
  else
    .cdcStandard

/-- The registry's (vendorId, productId) → family table, in the order the
four family branches of `detectDeviceType` list their product ids. -/
def registryTable : List (Nat × Nat × UsbDeviceType) :=
  [(0x1A86, 0x7523, .ch340), (0x1A86, 0x7522, .ch340),
   (0x1A86, 0x7584, .ch340), (0x1A86, 0x5523, .ch340),
   (0x0403, 0x6001, .ft232), (0x0403, 0x6010, .ft232),
   (0x0403, 0x6011, .ft232), (0x0403, 0x6014, .ft232),
   (0x0403, 0x6015, .ft232),
   (0x10C4, 0xEA60, .cp210x), (0x10C4, 0xEA70, .cp210x),
   (0x10C4, 0xEA71, .cp210x),
   (0x067B, 0x2303, .pl2303), (0x067B, 0x2304, .pl2303)]

/-- A (vid, pid) pair is matched by some entry of the registry table. -/
def registeredPair (vid pid : Nat) : Bool :=
  registryTable.any fun e => e.1 == vid && e.2.1 == pid

/-- Mirror of `TinyUsbCdcService::SerialConfig`
(baud rate; data bits 5..8; parity 0=None 1=Odd 2=Even; stop bits 0=1 1=1.5 2=2). -/
structure SerialConfig where
  baud_rate : Nat
  data_bits : Nat
  parity : Nat
  stop_bits : Nat
deriving DecidableEq, Repr

/-- A USB control transfer as issued through `cdc_acm_host_send_custom_request`:
the setup-packet fields plus the outgoing payload bytes (empty when none). -/
structure ControlRequest where
  bmRequestType : Nat
  bRequest : Nat
  wValue : Nat
  wIndex : Nat
  wLength : Nat
  payload : List Nat
deriving DecidableEq, Repr

/-- Memory layout of `cdc_acm_line_coding_t` as sent on the wire:
little-endian u32 baud rate, then stop-bits code, parity code, data bits. -/
def lineCodingBytes (cfg : SerialConfig) : List Nat :=
  [cfg.baud_rate % 256, cfg.baud_rate / 256 % 256,
   cfg.baud_rate / 65536 % 256, cfg.baud_rate / 16777216 % 256,
   cfg.stop_bits, cfg.parity, cfg.data_bits]

/-- SET_LINE_CODING request (bmRequestType 0x21, bRequest 0x20, 7-byte payload). -/
def setLineCodingReq (cfg : SerialConfig) : ControlRequest :=
  ⟨0x21, 0x20, 0x00, 0x00, 7, lineCodingBytes cfg⟩

/-- GET_LINE_CODING verification request (bmRequestType 0xA1, bRequest 0x21). -/
def getLineCodingReq : ControlRequest :=
  ⟨0xA1, 0x21, 0x00, 0x00, 7, []⟩

/-- SET_CONTROL_LINE_STATE request asserting DTR and RTS (wValue 0x03). -/
def setControlLineStateReq : ControlRequest :=
  ⟨0x21, 0x22, 0x03, 0x00, 0, []⟩

/-- CH340 baud-rate register lookup from `configureCH340SerialPort`:
listed common rates map to their two-byte register encoding, anything
else takes the default (the 115200 entry, 0xCC03). -/
def ch340BaudReg (baud : Nat) : Nat :=
  if baud = 2400 then 0xD901
  else if baud = 4800 then 0x6402
  else if baud = 9600 then 0xB202
  else if baud = 19200 then 0xD902
  else if baud = 38400 then 0x6403
  else if baud = 57600 then 0x9803
  else if baud = 115200 then 0xCC03
  else if baud = 230400 then 0xE603
  else if baud = 460800 then 0xF303
  else if baud = 921600 then 0xF904
  else 0xCC03

/-- The baud rates listed in the CH340 lookup switch. -/
def ch340ListedBauds : List Nat :=
  [2400, 4800, 9600, 19200, 38400, 57600, 115200, 230400, 460800, 921600]

/-- CH340 vendor request: set baud rate (0x40, 0x9A, fixed wValue 0x1312,
wIndex = looked-up register value). -/
def ch340SetBaudReq (reg : Nat) : ControlRequest :=
  ⟨0x40, 0x9A, 0x1312, reg, 0, []⟩

/-- CH340 vendor request: set data format to the fixed 8-N-1 code 0x0008. -/
def ch340SetFormatReq : ControlRequest :=
  ⟨0x40, 0x9B, 0x0008, 0x0000, 0, []⟩

/-- CH340 vendor request: set control lines with the DTR/RTS-asserted constant 0xDF20. -/
def ch340SetLinesReq : ControlRequest :=
  ⟨0x40, 0xA4, 0xDF20, 0x0000, 0, []⟩

/-- Observable log events of the configurator, one per ESP_LOG call that
reports an outcome (warnings and per-step success notes). -/
inductive ConfigNote
  | noDeviceError
  | ch340FormatDowngraded
  | lineCodingOk
  | lineCodingFailed
  | verifyOk
  | verifyFailed
  | controlLinesOk
  | controlLinesFailed
  | ch340BaudOk
  | ch340BaudFailed
  | ch340FormatOk
  | ch340FormatFailed
  | ch340LinesOk
  | ch340LinesFailed
deriving DecidableEq, Repr

/-- The service's session state: the static members `_s_is_device_connected`,
`_s_cdc_device_handle` (as an optional handle id), `_s_device_vid`,
`_s_device_pid`, plus the members `_current_device_type`,
`_heartbeat_task_handle` (as a running flag) and `_current_config`. -/
structure ServiceState where
  connected : Bool
  handle : Option Nat
  vid : Nat
  pid : Nat
  deviceType : UsbDeviceType
  heartbeatRunning : Bool
  config : SerialConfig
deriving DecidableEq, Repr

/-- Embedding of `TinyUsbCdcService::configureCH340SerialPort(uint32_t)`:
after the connected/handle guard it issues the three vendor transfers
unconditionally, logging each outcome; it never mutates the session state. -/
def configureCH340SerialPort (st : ServiceState) (baud : Nat)
    (dev : ControlRequest → Bool) :
    ServiceState × List ControlRequest × List ConfigNote :=
  if ¬(st.connected = true ∧ st.handle.isSome = true) then
    (st, [], [.noDeviceError])
  else
    let r1 := ch340SetBaudReq (ch340BaudReg baud)
    let n1 := if dev r1 then ConfigNote.ch340BaudOk else ConfigNote.ch340BaudFailed
    let n2 := if dev ch340SetFormatReq then ConfigNote.ch340FormatOk else ConfigNote.ch340FormatFailed
    let n3 := if dev ch340SetLinesReq then ConfigNote.ch340LinesOk else ConfigNote.ch340LinesFailed
    (st, [r1, ch340SetFormatReq, ch340SetLinesReq], [n1, n2, n3])

/-- Embedding of `TinyUsbCdcService::configureSerialPort(const SerialConfig&)`.
Returns the (unchanged) session state, the control transfers issued in order,
and the outcome notes.  Faithful to the source control flow: guard on
connected/handle; CH340 devices delegate to the vendor path and log a
downgrade warning for non-8-N-1 requests; otherwise SET_LINE_CODING is sent,
and only on its success are the GET_LINE_CODING verification and (for
CP210x/PL2303) the SET_CONTROL_LINE_STATE assertion issued. -/
def configureSerialPort (st : ServiceState) (cfg : SerialConfig)
    (dev : ControlRequest → Bool) :
    ServiceState × List ControlRequest × List ConfigNote :=
  if ¬(st.connected = true ∧ st.handle.isSome = true) then
    (st, [], [.noDeviceError])
  else if st.deviceType = .ch340 then
    let r := configureCH340SerialPort st cfg.baud_rate dev
    let extra :=
      if cfg.data_bits ≠ 8 ∨ cfg.parity ≠ 0 ∨ cfg.stop_bits ≠ 0 then
        [ConfigNote.ch340FormatDowngraded]
      else []
    (r.1, r.2.1, r.2.2 ++ extra)
  else
    let slc := setLineCodingReq cfg
    if dev slc then
      let verifyNote := if dev getLineCodingReq then ConfigNote.verifyOk else ConfigNote.verifyFailed
      if st.deviceType = .cp210x ∨ st.deviceType = .pl2303 then
        let clsNote := if dev setControlLineStateReq then ConfigNote.controlLinesOk else ConfigNote.controlLinesFailed
        (st, [slc, getLineCodingReq, setControlLineStateReq],
         [.lineCodingOk, verifyNote, clsNote])
      else
        (st, [slc, getLineCodingReq], [.lineCodingOk, verifyNote])
    else
      (st, [slc], [.lineCodingFailed])

/-- Embedding of the `CDC_ACM_HOST_DEVICE_DISCONNECTED` case of
`TinyUsbCdcService::device_event_callback`: when the event's handle equals
the current device handle, the heartbeat is stopped, the handle is closed
and nulled, and the connected flag and vid/pid are cleared.  The member
`_current_device_type` is not touched by this path. -/
def deviceEventDisconnect (evHdl : Nat) (st : ServiceState) : ServiceState :=
  if st.handle = some evHdl then
    ⟨false, none, 0, 0, st.deviceType, false, st.config⟩
  else
    st

/-- Embedding of `TinyUsbCdcService::forceDisconnectDevice`: stops the
heartbeat, closes and nulls the handle, clears connected/vid/pid and resets
the device type to `DEVICE_TYPE_UNKNOWN`. -/
def forceDisconnectDevice (st : ServiceState) : ServiceState :=
  ⟨false, none, 0, 0, .unknown, false, st.config⟩

/-- Modelled from the spec: the Stream Buffer byte-level contract of §4.2.
The buffer implementation (FreeRTOS `xRingbufferSend` behind
`data_received_callback`) is not part of this repository's sources, so the
push/pull semantics follow the spec's words: bounded FIFO of bytes with
capacity C; `push` never blocks and on insufficient capacity drops the
newest bytes (those that do not fit), leaving already-buffered bytes
untouched; `pull` is non-blocking and returns up to `maxLen` bytes. -/
structure StreamBuffer where
  capacity : Nat
  data : List Nat
deriving DecidableEq, Repr

/-- Modelled from the spec: `push(bytes) -> bytesAccepted` with the
drop-newest overflow policy of §4.2. -/
def push (b : StreamBuffer) (bytes : List Nat) : StreamBuffer × Nat :=
  let accepted := min bytes.length (b.capacity - b.data.length)
  (⟨b.capacity, b.data ++ bytes.take accepted⟩, accepted)

/-- Modelled from the spec: `pull(maxLen) -> bytes`, non-blocking, removes
and returns up to `maxLen` buffered bytes in FIFO order. -/
def pull (b : StreamBuffer) (maxLen : Nat) : StreamBuffer × List Nat :=
  (⟨b.capacity, b.data.drop maxLen⟩, b.data.take maxLen)

/-- A sequence of pushes, each keeping the resulting buffer. -/
def pushAll : StreamBuffer → List (List Nat) → StreamBuffer
  | b, [] => b
  | b, p :: rest => pushAll (push b p).1 rest

/-- The ring buffer seen at item granularity, as `read` consumes it:
`xRingbufferReceive` hands back the next retrievable chunk and
`vRingbufferReturnItem` (which takes no length) releases that whole chunk.
These two primitives are library code outside this repository; they are
modelled here with their documented item semantics. -/
abbrev ChunkBuf := List (List Nat)

/-- Embedding of `TinyUsbCdcService::read(uint8_t*, size_t)`: guard on a
null buffer / zero `max_len`; receive the next chunk; copy
`min(max_len, item_size)` bytes; return the whole item; report the copied
length.  The first component is the bytes delivered to the caller, the
second the buffer state after the call. -/
def cdcServiceRead (buf : ChunkBuf) (maxLen : Nat) : List Nat × ChunkBuf :=
  if maxLen = 0 then ([], buf)
  else
    match buf with
    | [] => ([], [])
    | item :: rest => (item.take (min maxLen item.length), rest)

/-- Embedding of `UartService::read(uint8_t*, size_t)` — the plain-UART
sibling, line for line the same receive/copy/return-item sequence. -/
def uartServiceRead (buf : ChunkBuf) (maxLen : Nat) : List Nat × ChunkBuf :=
  if maxLen = 0 then ([], buf)
  else
    match buf with
    | [] => ([], [])
    | item :: rest => (item.take (min maxLen item.length), rest)

/-- Outputs of a sequence of `read` calls with the given `max_len` requests. -/
def readSeq : ChunkBuf → List Nat → List (List Nat)
  | _, [] => []
  | buf, r :: rs => (cdcServiceRead buf r).1 :: readSeq (cdcServiceRead buf r).2 rs

/-- Environment sample for one pass of the heartbeat loop: the stop flag,
the connected flag and handle validity, and whether the blocking transmit
succeeds.  (The snprintf of the marker frame is bounded well below the
128-byte buffer, so the connected branch always transmits.) -/
structure HbEnv where
  stop : Bool
  connected : Bool
  handle : Bool
  txOk : Bool
deriving DecidableEq, Repr

/-- Embedding of the loop of `TinyUsbCdcService::heartbeat_task`: while the
stop flag is unset, each pass with a connected device and valid handle
formats a frame carrying the current counter value and post-increments the
counter; the transmit outcome is only logged.  Returns the sequence numbers
of the frames sent, in order. -/
def heartbeatRun : List HbEnv → Nat → List Nat
  | [], _ => []
  | e :: rest, counter =>
    if e.stop then []
    else if e.connected && e.handle then counter :: heartbeatRun rest (counter + 1)
    else heartbeatRun rest counter

/-- Claim C1: `detectDeviceType` is total (it returns a `UsbDeviceType` value
for every (vid, pid) pair by its type); every pair listed in the registry
table yields its documented family, and every pair not matched by any entry
yields the standard-CDC family. -/
theorem c1_classify_total (vid pid : Nat) :
    (∀ fam : UsbDeviceType, (vid, pid, fam) ∈ registryTable →
      detectDeviceType vid pid = fam) ∧
    (registeredPair vid pid = false →
      detectDeviceType vid pid = UsbDeviceType.cdcStandard) := by
  constructor
  · intro fam hmem
    have hall : ∀ e ∈ registryTable, detectDeviceType e.1 e.2.1 = e.2.2 := by
      decide
    exact hall (vid, pid, fam) hmem
  · intro hreg
    unfold detectDeviceType
    split_ifs with h1 h2 h3 h4 h5 h6 h7
    · obtain ⟨rfl, hp⟩ := h1
      rcases hp with rfl | rfl | rfl | rfl <;> exact absurd hreg (by decide)
    · obtain ⟨rfl, hp⟩ := h2
      rcases hp with rfl | rfl | rfl | rfl | rfl <;> exact absurd hreg (by decide)
    · obtain ⟨rfl, hp⟩ := h3
      rcases hp with rfl | rfl | rfl <;> exact absurd hreg (by decide)
    · obtain ⟨rfl, hp⟩ := h4
      rcases hp with rfl | rfl <;> exact absurd hreg (by decide)
    · rfl
    · rfl
    · rfl
    · rfl

/-- Witness for C1: a registered CH340 pair classifies as CH340, and an
unregistered pair classifies as standard CDC. -/
theorem c1_classify_total_witness :
    detectDeviceType 0x1A86 0x7523 = UsbDeviceType.ch340 ∧
    detectDeviceType 0x1234 0x0001 = UsbDeviceType.cdcStandard :=
  ⟨(c1_classify_total 0x1A86 0x7523).1 UsbDeviceType.ch340 (by decide),
   (c1_classify_total 0x1234 0x0001).2 (by decide)⟩

/-- Claim C2: a single push of C+K bytes (K > 0) into an empty buffer of
capacity C retains exactly the first C pushed bytes (the accepted count is
C), a subsequent pull with maxLen ≥ C returns those bytes unchanged, and a
push never discards bytes already in the buffer. -/
theorem c2_overflow_drop_newest (C K m : Nat) (bytes : List Nat)
    (pre : StreamBuffer) (hK : 0 < K) (hlen : bytes.length = C + K)
    (hm : C ≤ m) :
    (push ⟨C, []⟩ bytes).1.data = bytes.take C ∧
    (push ⟨C, []⟩ bytes).2 = C ∧
    (pull (push ⟨C, []⟩ bytes).1 m).2 = bytes.take C ∧
    ∃ tail, (push pre bytes).1.data = pre.data ++ tail := by
  refine ⟨?_, ?_, ?_, ⟨bytes.take _, rfl⟩⟩
  · simp only [push, List.length_nil, Nat.sub_zero, List.nil_append]
    congr 1
    omega
  · simp only [push, List.length_nil, Nat.sub_zero]
    omega
  · simp only [push, pull, List.length_nil, Nat.sub_zero, List.nil_append,
      List.take_take]
    congr 1
    omega

/-- Witness for C2: capacity 2, a 3-byte push retains the first two bytes
and the pre-existing byte of another buffer survives an overflowing push. -/
theorem c2_overflow_drop_newest_witness :
    (push ⟨2, []⟩ [10, 20, 30]).1.data = [10, 20] ∧
    (push ⟨2, []⟩ [10, 20, 30]).2 = 2 ∧
    (pull (push ⟨2, []⟩ [10, 20, 30]).1 5).2 = [10, 20] ∧
    ∃ tail, (push ⟨2, [7]⟩ [10, 20, 30]).1.data = [7] ++ tail := by
  have h := c2_overflow_drop_newest 2 1 5 [10, 20, 30] ⟨2, [7]⟩
    (by decide) (by decide) (by decide)
  simpa using h

/-- Helper: while the pushed payloads fit entirely, `pushAll` appends them
all and keeps the capacity. -/
theorem pushAll_data (ps : List (List Nat)) :
    ∀ b : StreamBuffer, b.data.length + (ps.map List.length).sum ≤ b.capacity →
      (pushAll b ps).data = b.data ++ ps.flatten ∧
      (pushAll b ps).capacity = b.capacity := by
  induction ps with
  | nil => intro b _; simp [pushAll]
  | cons p rest ih =>
    intro b h
    simp only [List.map_cons, List.sum_cons] at h
    have hfit : min p.length (b.capacity - b.data.length) = p.length := by
      omega
    have hstep : (push b p).1 = ⟨b.capacity, b.data ++ p⟩ := by
      simp [push, hfit]
    have hrest := ih (push b p).1 (by
      rw [hstep]
      simp only [List.length_append]
      omega)
    rw [hstep] at hrest
    simpa [pushAll, hstep, List.append_assoc] using hrest

/-- Claim C8: starting from an empty buffer of capacity C, pushing payloads
totalling N ≤ C bytes and then pulling with maxLen ≥ N returns exactly
those bytes in push order. -/
theorem c8_round_trip (C m : Nat) (ps : List (List Nat))
    (hcap : (ps.map List.length).sum ≤ C)
    (hm : (ps.map List.length).sum ≤ m) :
    (pull (pushAll ⟨C, []⟩ ps) m).2 = ps.flatten := by
  obtain ⟨hdata, -⟩ := pushAll_data ps ⟨C, []⟩ (by simpa using hcap)
  simp only [pull, hdata, List.nil_append]
  exact List.take_of_length_le (by rw [List.length_flatten]; omega)

/-- Witness for C8: push [0x41, 0x42] then [0x43] on an empty buffer of
capacity 4, then pull 10, yields [0x41, 0x42, 0x43]. -/
theorem c8_round_trip_witness :
    (pull (pushAll ⟨4, []⟩ [[0x41, 0x42], [0x43]]) 10).2 = [0x41, 0x42, 0x43] := by
  have h := c8_round_trip 4 10 [[0x41, 0x42], [0x43]] (by decide) (by decide)
  simpa using h

/-- A device that rejects the standard SET_LINE_CODING transfer and accepts
everything else. -/
def rejectLineCodingDev : ControlRequest → Bool :=
  fun r => !(r.bRequest == 0x20)

/-- A session state with a connected PL2303 device. -/
def pl2303State : ServiceState :=
  ⟨true, some 1, 0x067B, 0x2303, .pl2303, true, ⟨115200, 8, 0, 0⟩⟩

/-- Counterexample to claim C3: with a connected PL2303 device whose
SET_LINE_CODING transfer fails, the configurator does NOT issue the DTR/RTS
SET_CONTROL_LINE_STATE transfer — that step only runs in the success branch
of the line-coding request. -/
theorem c3_counterexample :
    setControlLineStateReq ∉
      (configureSerialPort pl2303State ⟨9600, 8, 0, 0⟩ rejectLineCodingDev).2.1 := by
  decide

/-- Claim C3 (amended): for a connected StandardCdcGoodB (PL2303) device,
when SET_LINE_CODING fails the configurator issues no further transfer —
neither verification nor the DTR/RTS assertion — logs the failure, and
completes normally with the session state unchanged (no error raised). -/
theorem c3_line_coding_failure (st : ServiceState) (cfg : SerialConfig)
    (dev : ControlRequest → Bool) (hc : st.connected = true)
    (hh : st.handle.isSome = true) (ht : st.deviceType = .pl2303)
    (hfail : dev (setLineCodingReq cfg) = false) :
    configureSerialPort st cfg dev = (st, [setLineCodingReq cfg], [.lineCodingFailed]) := by
  simp [configureSerialPort, hc, hh, ht, hfail]

/-- Witness for C3 (amended claim) at the concrete PL2303 session and a
9600-8-N-1 request against the rejecting device. -/
theorem c3_line_coding_failure_witness :
    configureSerialPort pl2303State ⟨9600, 8, 0, 0⟩ rejectLineCodingDev =
      (pl2303State, [setLineCodingReq ⟨9600, 8, 0, 0⟩], [.lineCodingFailed]) :=
  c3_line_coding_failure pl2303State ⟨9600, 8, 0, 0⟩ rejectLineCodingDev
    (by decide) (by decide) (by decide) (by decide)

/-- Claim C4: for a connected CH340 (VendorA) device the configurator issues
exactly the three vendor transfers — set baud (0x40/0x9A/wValue 0x1312/
wIndex from the lookup), set format (0x9B, fixed 8-N-1 code 0x0008), set
control lines (0xA4, DTR/RTS constant 0xDF20) — and every baud rate absent
from the lookup table uses the 115200 entry 0xCC03. -/
theorem c4_ch340_vendor_transfers (st : ServiceState) (cfg : SerialConfig)
    (dev : ControlRequest → Bool) (hc : st.connected = true)
    (hh : st.handle.isSome = true) (ht : st.deviceType = .ch340) :
    (configureSerialPort st cfg dev).2.1 =
      [ch340SetBaudReq (ch340BaudReg cfg.baud_rate), ch340SetFormatReq,
       ch340SetLinesReq] ∧
    (cfg.baud_rate ∉ ch340ListedBauds →
      ch340BaudReg cfg.baud_rate = ch340BaudReg 115200) := by
  constructor
  · simp [configureSerialPort, configureCH340SerialPort, hc, hh, ht]
  · intro hb
    have h115 : ch340BaudReg 115200 = 0xCC03 := by decide
    have hne : ∀ x ∈ ch340ListedBauds, cfg.baud_rate ≠ x :=
      fun x hx h => hb (h ▸ hx)
    rw [h115]
    rw [ch340BaudReg,
      if_neg (hne 2400 (by decide)), if_neg (hne 4800 (by decide)),
      if_neg (hne 9600 (by decide)), if_neg (hne 19200 (by decide)),
      if_neg (hne 38400 (by decide)), if_neg (hne 57600 (by decide)),
      if_neg (hne 115200 (by decide)), if_neg (hne 230400 (by decide)),
      if_neg (hne 460800 (by decide)), if_neg (hne 921600 (by decide))]

/-- Witness for C4: a connected CH340 session configured for the unlisted
baud rate 12345 issues the three vendor transfers with the 115200 register
value. -/
theorem c4_ch340_vendor_transfers_witness :
    (configureSerialPort ⟨true, some 1, 0x1A86, 0x7523, .ch340, true,
        ⟨115200, 8, 0, 0⟩⟩ ⟨12345, 8, 0, 0⟩ (fun _ => true)).2.1 =
      [ch340SetBaudReq (ch340BaudReg 12345), ch340SetFormatReq,
       ch340SetLinesReq] ∧
    ch340BaudReg 12345 = ch340BaudReg 115200 := by
  have h := c4_ch340_vendor_transfers
    ⟨true, some 1, 0x1A86, 0x7523, .ch340, true, ⟨115200, 8, 0, 0⟩⟩
    ⟨12345, 8, 0, 0⟩ (fun _ => true) (by decide) (by decide) (by decide)
  exact ⟨h.1, h.2 (by decide)⟩

/-- Claim C5: requesting a non-8-N-1 line format for a connected
CH340-classified device silently downgrades the format — the issued format
transfer is the fixed 8-N-1 vendor request and the full three-transfer
sequence still runs — surfaces the downgrade to the caller (the
`CH340 only supports 8N1 format` warning note), and never hard-fails: the
no-device error is absent and the session state is returned unchanged. -/
theorem c5_ch340_format_downgrade (st : ServiceState) (cfg : SerialConfig)
    (dev : ControlRequest → Bool) (hc : st.connected = true)
    (hh : st.handle.isSome = true) (ht : st.deviceType = .ch340)
    (hfmt : cfg.data_bits ≠ 8 ∨ cfg.parity ≠ 0 ∨ cfg.stop_bits ≠ 0) :
    (configureSerialPort st cfg dev).2.1 =
      [ch340SetBaudReq (ch340BaudReg cfg.baud_rate), ch340SetFormatReq,
       ch340SetLinesReq] ∧
    ConfigNote.ch340FormatDowngraded ∈ (configureSerialPort st cfg dev).2.2 ∧
    ConfigNote.noDeviceError ∉ (configureSerialPort st cfg dev).2.2 ∧
    (configureSerialPort st cfg dev).1 = st := by
  refine ⟨?_, ?_, ?_, ?_⟩
  · simp [configureSerialPort, configureCH340SerialPort, hc, hh, ht]
  · simp [configureSerialPort, configureCH340SerialPort, hc, hh, ht, hfmt]
  · cases hb1 : dev (ch340SetBaudReq (ch340BaudReg cfg.baud_rate)) <;>
      cases hb2 : dev ch340SetFormatReq <;>
      cases hb3 : dev ch340SetLinesReq <;>
      simp [configureSerialPort, configureCH340SerialPort, hc, hh, ht,
        hfmt, hb1, hb2, hb3]
  · simp [configureSerialPort, configureCH340SerialPort, hc, hh, ht]

/-- Witness for C5: a connected CH340 session asked for 7-E-2 framing. -/
theorem c5_ch340_format_downgrade_witness :
    (configureSerialPort ⟨true, some 1, 0x1A86, 0x7523, .ch340, true,
        ⟨115200, 8, 0, 0⟩⟩ ⟨9600, 7, 2, 2⟩ (fun _ => true)).2.1 =
      [ch340SetBaudReq (ch340BaudReg 9600), ch340SetFormatReq,
       ch340SetLinesReq] ∧
    ConfigNote.ch340FormatDowngraded ∈
      (configureSerialPort ⟨true, some 1, 0x1A86, 0x7523, .ch340, true,
        ⟨115200, 8, 0, 0⟩⟩ ⟨9600, 7, 2, 2⟩ (fun _ => true)).2.2 ∧
    ConfigNote.noDeviceError ∉
      (configureSerialPort ⟨true, some 1, 0x1A86, 0x7523, .ch340, true,
        ⟨115200, 8, 0, 0⟩⟩ ⟨9600, 7, 2, 2⟩ (fun _ => true)).2.2 ∧
    (configureSerialPort ⟨true, some 1, 0x1A86, 0x7523, .ch340, true,
        ⟨115200, 8, 0, 0⟩⟩ ⟨9600, 7, 2, 2⟩ (fun _ => true)).1 =
      ⟨true, some 1, 0x1A86, 0x7523, .ch340, true, ⟨115200, 8, 0, 0⟩⟩ :=
  c5_ch340_format_downgrade
    ⟨true, some 1, 0x1A86, 0x7523, .ch340, true, ⟨115200, 8, 0, 0⟩⟩
    ⟨9600, 7, 2, 2⟩ (fun _ => true) (by decide) (by decide) (by decide)
    (by decide)

/-- Claim C7: calling the configurator while no session is connected (the
connected flag is down or the handle is null) is a no-op reported as the
`no active session` error: no control transfer is issued and the whole
session state — connection flag, identity, family, stored configuration —
is returned exactly as it was. -/
theorem c7_reconfigure_no_session (st : ServiceState) (cfg : SerialConfig)
    (dev : ControlRequest → Bool)
    (h : st.connected = false ∨ st.handle = none) :
    configureSerialPort st cfg dev = (st, [], [.noDeviceError]) := by
  rcases h with h | h <;> simp [configureSerialPort, h]

/-- Witness for C7: an idle state (no connection, no handle) with a pending
configuration request. -/
theorem c7_reconfigure_no_session_witness :
    configureSerialPort ⟨false, none, 0, 0, .unknown, false,
        ⟨115200, 8, 0, 0⟩⟩ ⟨9600, 8, 0, 0⟩ (fun _ => true) =
      (⟨false, none, 0, 0, .unknown, false, ⟨115200, 8, 0, 0⟩⟩, [],
       [.noDeviceError]) :=
  c7_reconfigure_no_session ⟨false, none, 0, 0, .unknown, false,
    ⟨115200, 8, 0, 0⟩⟩ ⟨9600, 8, 0, 0⟩ (fun _ => true) (Or.inl rfl)

/-- Counterexample to claim C6: after a disconnect notification for the
active device arrives through the event path, the derived chipset family is
NOT cleared — a connected CH340 session still reports family CH340, not
Unknown.  (Only the separate `forceDisconnectDevice` path resets it.) -/
theorem c6_counterexample :
    (deviceEventDisconnect 7
        ⟨true, some 7, 0x1A86, 0x7523, .ch340, true, ⟨115200, 8, 0, 0⟩⟩).deviceType =
      UsbDeviceType.ch340 ∧
    UsbDeviceType.ch340 ≠ UsbDeviceType.unknown := by
  decide

/-- Claim C6 (amended): after a disconnect notification whose handle matches
the active device, the keep-alive generator is stopped, the device handle is
released (null), the connection flag is cleared (the session returns to
Idle) and the DeviceIdentity (vid, pid) is zeroed — but the derived
ChipsetFamily keeps its previous value; it is reset to Unknown only by the
explicit `forceDisconnectDevice` operation. -/
theorem c6_disconnect_event (st : ServiceState) (evHdl : Nat)
    (h : st.handle = some evHdl) :
    (deviceEventDisconnect evHdl st).heartbeatRunning = false ∧
    (deviceEventDisconnect evHdl st).handle = none ∧
    (deviceEventDisconnect evHdl st).connected = false ∧
    (deviceEventDisconnect evHdl st).vid = 0 ∧
    (deviceEventDisconnect evHdl st).pid = 0 ∧
    (deviceEventDisconnect evHdl st).deviceType = st.deviceType ∧
    (forceDisconnectDevice st).deviceType = UsbDeviceType.unknown := by
  simp [deviceEventDisconnect, forceDisconnectDevice, h]

/-- Witness for C6 (amended claim) at a concrete connected CH340 session. -/
theorem c6_disconnect_event_witness :
    (deviceEventDisconnect 7
        ⟨true, some 7, 0x1A86, 0x7523, .ch340, true, ⟨115200, 8, 0, 0⟩⟩).heartbeatRunning = false ∧
    (deviceEventDisconnect 7
        ⟨true, some 7, 0x1A86, 0x7523, .ch340, true, ⟨115200, 8, 0, 0⟩⟩).handle = none ∧
    (deviceEventDisconnect 7
        ⟨true, some 7, 0x1A86, 0x7523, .ch340, true, ⟨115200, 8, 0, 0⟩⟩).connected = false ∧
    (deviceEventDisconnect 7
        ⟨true, some 7, 0x1A86, 0x7523, .ch340, true, ⟨115200, 8, 0, 0⟩⟩).vid = 0 ∧
    (deviceEventDisconnect 7
        ⟨true, some 7, 0x1A86, 0x7523, .ch340, true, ⟨115200, 8, 0, 0⟩⟩).pid = 0 ∧
    (deviceEventDisconnect 7
        ⟨true, some 7, 0x1A86, 0x7523, .ch340, true, ⟨115200, 8, 0, 0⟩⟩).deviceType =
      (⟨true, some 7, 0x1A86, 0x7523, .ch340, true, ⟨115200, 8, 0, 0⟩⟩ : ServiceState).deviceType ∧
    (forceDisconnectDevice
        ⟨true, some 7, 0x1A86, 0x7523, .ch340, true, ⟨115200, 8, 0, 0⟩⟩).deviceType =
      UsbDeviceType.unknown :=
  c6_disconnect_event
    ⟨true, some 7, 0x1A86, 0x7523, .ch340, true, ⟨115200, 8, 0, 0⟩⟩ 7 rfl

/-- Helper: every sequence number the heartbeat loop emits is at least the
counter value it started from. -/
theorem heartbeatRun_le (env : List HbEnv) :
    ∀ c x : Nat, x ∈ heartbeatRun env c → c ≤ x := by
  induction env with
  | nil => intro c x hx; simp [heartbeatRun] at hx
  | cons e rest ih =>
    intro c x hx
    by_cases hs : e.stop = true
    · simp [heartbeatRun, hs] at hx
    · by_cases hc2 : (e.connected && e.handle) = true
      · simp only [heartbeatRun, hs, hc2, if_true, if_false,
          Bool.false_eq_true, List.mem_cons] at hx
        rcases hx with rfl | hx
        · exact le_refl x
        · exact le_trans (Nat.le_succ c) (ih (c + 1) x hx)
      · simp only [heartbeatRun, hs, hc2, if_false, Bool.false_eq_true] at hx
        exact ih c x hx

/-- Helper: emitted heartbeat sequence numbers are strictly increasing. -/
theorem heartbeatRun_chain (env : List HbEnv) :
    ∀ c : Nat, List.Chain' (· < ·) (heartbeatRun env c) := by
  induction env with
  | nil => intro c; simp [heartbeatRun]
  | cons e rest ih =>
    intro c
    by_cases hs : e.stop = true
    · simp [heartbeatRun, hs]
    · by_cases hc2 : (e.connected && e.handle) = true
      · simp only [heartbeatRun, hs, hc2, if_true, if_false, Bool.false_eq_true]
        refine List.chain'_cons'.mpr ⟨?_, ih (c + 1)⟩
        intro y hy
        have hmem : y ∈ heartbeatRun rest (c + 1) := List.mem_of_mem_head? hy
        have := heartbeatRun_le rest (c + 1) y hmem
        omega
      · simp only [heartbeatRun, hs, hc2, if_false, Bool.false_eq_true]
        exact ih c

/-- Helper: the frames the loop emits, and when it stops, do not depend on
whether any transmission succeeded. -/
theorem heartbeatRun_tx_independent (env : List HbEnv) :
    ∀ c : Nat,
      heartbeatRun (env.map fun e => ⟨e.stop, e.connected, e.handle, false⟩) c =
        heartbeatRun env c := by
  induction env with
  | nil => intro c; rfl
  | cons e rest ih =>
    intro c
    by_cases hs : e.stop = true <;>
      by_cases hc2 : (e.connected && e.handle) = true <;>
      simp [heartbeatRun, hs, hc2, ih]

/-- Helper: when no pass ever sees the stop flag, the loop runs every pass
and emits one frame per connected pass. -/
theorem heartbeatRun_length (env : List HbEnv) :
    ∀ c : Nat, (∀ e ∈ env, e.stop = false) →
      (heartbeatRun env c).length =
        (env.filter fun e => e.connected && e.handle).length := by
  induction env with
  | nil => intro c _; rfl
  | cons e rest ih =>
    intro c hstop
    have hs : e.stop = false := hstop e (List.mem_cons_self e rest)
    have hrest : ∀ x ∈ rest, x.stop = false :=
      fun x hx => hstop x (List.mem_cons_of_mem e hx)
    by_cases hc2 : (e.connected && e.handle) = true <;>
      simp [heartbeatRun, hs, hc2, List.filter_cons, ih c hrest,
        ih (c + 1) hrest]

/-- Claim C9: each heartbeat frame carries a sequence number strictly
greater than the previous frame's; failed transmissions change neither the
emitted frames nor when the loop stops; and absent the stop flag the loop
never terminates early — it runs every pass, emitting one frame per
connected pass. -/
theorem c9_heartbeat (env : List HbEnv) (c : Nat) :
    List.Chain' (· < ·) (heartbeatRun env c) ∧
    heartbeatRun (env.map fun e => ⟨e.stop, e.connected, e.handle, false⟩) c =
      heartbeatRun env c ∧
    ((∀ e ∈ env, e.stop = false) →
      (heartbeatRun env c).length =
        (env.filter fun e => e.connected && e.handle).length) :=
  ⟨heartbeatRun_chain env c, heartbeatRun_tx_independent env c,
   heartbeatRun_length env c⟩

/-- Witness for C9: a three-pass session (connected, disconnected-pass,
connected with a failing transmit) whose stop flag is never set emits two
strictly increasing frames. -/
theorem c9_heartbeat_witness :
    List.Chain' (· < ·)
      (heartbeatRun [⟨false, true, true, true⟩, ⟨false, false, true, true⟩,
        ⟨false, true, true, false⟩] 5) ∧
    (heartbeatRun [⟨false, true, true, true⟩, ⟨false, false, true, true⟩,
        ⟨false, true, true, false⟩] 5).length = 2 := by
  refine ⟨(c9_heartbeat [⟨false, true, true, true⟩, ⟨false, false, true, true⟩,
    ⟨false, true, true, false⟩] 5).1, ?_⟩
  have h := (c9_heartbeat [⟨false, true, true, true⟩, ⟨false, false, true, true⟩,
    ⟨false, true, true, false⟩] 5).2.2 (by decide)
  simpa using h

/-- Helper: every nonempty output of a sequence of reads is an initial
segment of some chunk still present in the buffer the sequence started
from — reads never resurrect bytes outside the current chunks. -/
theorem readSeq_from_chunks (rs : List Nat) :
    ∀ (buf : ChunkBuf) (o : List Nat), o ∈ readSeq buf rs → o ≠ [] →
      ∃ c ∈ buf, ∃ m : Nat, o = c.take m := by
  induction rs with
  | nil => intro buf o ho _; simp [readSeq] at ho
  | cons r rest ih =>
    intro buf o ho hne
    simp only [readSeq, List.mem_cons] at ho
    rcases ho with rfl | ho
    · by_cases hr : r = 0
      · simp [cdcServiceRead, hr] at hne
      · match buf with
        | [] => simp [cdcServiceRead, hr] at hne
        | item :: tail =>
          refine ⟨item, List.mem_cons_self item tail, min r item.length, ?_⟩
          simp [cdcServiceRead, hr]
    · obtain ⟨c, hc, m, hm⟩ := ih (cdcServiceRead buf r).2 o ho hne
      by_cases hr : r = 0
      · exact ⟨c, by simpa [cdcServiceRead, hr] using hc, m, hm⟩
      · match buf with
        | [] =>
          simp [cdcServiceRead, hr] at hc
        | item :: tail =>
          have : c ∈ tail := by simpa [cdcServiceRead, hr] using hc
          exact ⟨c, List.mem_cons_of_mem item this, m, hm⟩

/-- Claim C10: when the next retrievable chunk has size s and
0 < maxLen < s, `read` copies out exactly the first maxLen bytes of the
chunk but releases the whole chunk: the post-call buffer is the remaining
chunks only, the discarded s−maxLen tail (which splits the original
content) is nonempty, every later read draws only on the remaining chunks,
and the plain-UART sibling behaves identically. -/
theorem c10_read_discards_tail (item : List Nat) (rest : ChunkBuf)
    (maxLen : Nat) (h0 : 0 < maxLen) (hs : maxLen < item.length) :
    (cdcServiceRead (item :: rest) maxLen).1 = item.take maxLen ∧
    (cdcServiceRead (item :: rest) maxLen).1.length = maxLen ∧
    (cdcServiceRead (item :: rest) maxLen).2 = rest ∧
    uartServiceRead (item :: rest) maxLen = cdcServiceRead (item :: rest) maxLen ∧
    item.take maxLen ++ item.drop maxLen ++ rest.flatten =
      (item :: rest).flatten ∧
    0 < (item.drop maxLen).length ∧
    (∀ rs o, o ∈ readSeq rest rs → o ≠ [] →
      ∃ c ∈ rest, ∃ m : Nat, o = c.take m) := by
  have hr : maxLen ≠ 0 := Nat.pos_iff_ne_zero.mp h0
  have hmin : min maxLen item.length = maxLen :=
    min_eq_left (le_of_lt hs)
  refine ⟨?_, ?_, ?_, ?_, ?_, ?_, fun rs o ho hne => readSeq_from_chunks rs rest o ho hne⟩
  · simp [cdcServiceRead, hr, hmin]
  · simp [cdcServiceRead, hr, hmin, List.length_take]
  · simp [cdcServiceRead, hr]
  · simp [cdcServiceRead, uartServiceRead, hr]
  · simp [List.flatten_cons, List.take_append_drop]
  · simp [List.length_drop]
    omega

/-- Witness for C10: a buffer whose head chunk is [1, 2, 3] read with
maxLen 2 delivers [1, 2], releases the whole chunk, and the byte 3 is gone
from the buffer. -/
theorem c10_read_discards_tail_witness :
    (cdcServiceRead [[1, 2, 3], [4]] 2).1 = [1, 2] ∧
    (cdcServiceRead [[1, 2, 3], [4]] 2).1.length = 2 ∧
    (cdcServiceRead [[1, 2, 3], [4]] 2).2 = [[4]] ∧
    uartServiceRead [[1, 2, 3], [4]] 2 = cdcServiceRead [[1, 2, 3], [4]] 2 := by
  have h := c10_read_discards_tail [1, 2, 3] [[4]] 2 (by decide) (by decide)
  exact ⟨h.1, h.2.1, h.2.2.1, h.2.2.2.1⟩

end EspBrookesia
